import Mathlib

/-!
Verification development for the `mcp-server-zoom-noauth` repository
(`src/mcp_server_zoom_noauth/server.py`).

The Python module is shallowly embedded: Python values that can flow through
the server (JSON-compatible values plus the two temporal kinds handled by
`convert_datetime_fields`) are modelled by the mutual inductive `PyVal`;
the `requests` HTTP layer is modelled by an oracle
`Oracle : Request → Except ReqFailure Response`; every facade operation
returns its result string together with the list of HTTP requests it issued,
so that "performs no (second) HTTP call" properties are statable.
Python exceptions are modelled by `Exc` and `Except`.

Modelling notes (library behaviour, not repository code):
- `json.dumps` is modelled by `pyJsonDumps`: a totally defined printer
  `renderJson` guarded by the decidable check `isSerializable` (datetime and
  tzlocal values are exactly the unserializable ones reachable here).
- Exception message texts for Python built-in type errors are approximated
  (the repository never branches on them; they only flow into `str(e)`).
- `str`/`repr` of container values is approximated in `pyRepr` (the server
  only applies `str` to tokens, meeting ids and URLs).
- current time / local timezone are parameters: `clock` maps an
  `expires_in` number of seconds to the ISO string of `now + expires_in`,
  and `off` is the `%z`-style UTC offset string of the current process.
-/

mutual

inductive PyVal where
  | str (s : String)
  | num (n : Int)
  | bool (b : Bool)
  | pynone
  | datetime (iso : String)
  | tzlocal
  | dict (fields : PyFields)
  | list (items : PyItems)

inductive PyFields where
  | nil
  | cons (k : String) (v : PyVal) (rest : PyFields)

inductive PyItems where
  | nil
  | cons (v : PyVal) (rest : PyItems)

end

/-- `dict.get k` / key lookup: first binding for `k` (Python dict keys are unique). -/
def fget : PyFields → String → Option PyVal
  | .nil, _ => none
  | .cons k v rest, key => if k == key then some v else fget rest key

/-- `k in d` for a dict. -/
def fhas : PyFields → String → Bool
  | .nil, _ => false
  | .cons k _ rest, key => k == key || fhas rest key

/-- `len(d)` for a dict. -/
def flen : PyFields → Nat
  | .nil => 0
  | .cons _ _ rest => flen rest + 1

/-- Keys of a dict, in insertion order. -/
def fkeys : PyFields → List String
  | .nil => []
  | .cons k _ rest => k :: fkeys rest

/-- A `PyItems` sequence as a Lean list. -/
def itemsToList : PyItems → List PyVal
  | .nil => []
  | .cons v rest => v :: itemsToList rest

/-- A Lean list as a `PyItems` sequence. -/
def listToItems : List PyVal → PyItems
  | [] => .nil
  | v :: rest => .cons v (listToItems rest)

/-- Python truthiness (`bool(v)`), as used by `if not x:` checks in the server. -/
def pyTruthy : PyVal → Bool
  | .str s => !(s == "")
  | .num n => !(n == 0)
  | .bool b => b
  | .pynone => false
  | .datetime _ => true
  | .tzlocal => true
  | .dict .nil => false
  | .dict (.cons _ _ _) => true
  | .list .nil => false
  | .list (.cons _ _) => true

/-- Python type name (used only inside approximate exception messages). -/
def pyTypeName : PyVal → String
  | .str _ => "str"
  | .num _ => "int"
  | .bool _ => "bool"
  | .pynone => "NoneType"
  | .datetime _ => "datetime.datetime"
  | .tzlocal => "tzlocal"
  | .dict _ => "dict"
  | .list _ => "list"

/-- Values `v` for which the f-string slice `v[:n]` (used in the server's
logging lines) does not raise. -/
def pySliceable : PyVal → Bool
  | .str _ => true
  | .list _ => true
  | _ => false

/-- Decimal digits of `n`, most significant first; structural fuel keeps the
definition kernel-reducible.  `natDigits (n+1) n` is always fully evaluated. -/
def natDigits : Nat → Nat → List Char
  | 0, _ => []
  | fuel + 1, n =>
    if n < 10 then [Nat.digitChar n]
    else natDigits fuel (n / 10) ++ [Nat.digitChar (n % 10)]

/-- `str(n)` for a non-negative integer. -/
def natRepr (n : Nat) : String := ⟨natDigits (n + 1) n⟩

/-- `str(n)` for a Python int. -/
def intRepr (n : Int) : String :=
  if n < 0 then "-" ++ natRepr n.natAbs else natRepr n.toNat

/-- Lower-case hex digit. -/
def hexDigit (n : Nat) : Char := "0123456789abcdef".data.getD n '0'

/-- Four lower-case hex digits, as in `json.dumps` unicode escapes. -/
def hex4 (n : Nat) : String :=
  ⟨[hexDigit (n / 4096 % 16), hexDigit (n / 256 % 16), hexDigit (n / 16 % 16), hexDigit (n % 16)]⟩

/-- One character of a JSON string literal, as escaped by `json.dumps`
(default `ensure_ascii=True`). -/
def escChar (c : Char) : String :=
  if c = '"' then "\\\""
  else if c = '\\' then "\\\\"
  else if c = '\n' then "\\n"
  else if c = '\r' then "\\r"
  else if c = '\t' then "\\t"
  else if c = Char.ofNat 8 then "\\b"
  else if c = Char.ofNat 12 then "\\f"
  else if c.toNat < 32 then "\\u" ++ hex4 c.toNat
  else if c.toNat ≤ 126 then String.singleton c
  else if c.toNat ≤ 65535 then "\\u" ++ hex4 c.toNat
  else "\\u" ++ hex4 (55296 + (c.toNat - 65536) / 1024) ++ "\\u" ++ hex4 (56320 + (c.toNat - 65536) % 1024)

/-- Body of a JSON string literal. -/
def escString (s : String) : String := String.join (s.data.map escChar)

/-- A JSON string literal. -/
def quoteJson (s : String) : String := "\"" ++ escString s ++ "\""

mutual

/-- The result text of `json.dumps` with its default separators
(`", "` and `": "`).  This printer is total; `json.dumps`'s refusal to
serialize datetime/tzlocal values is modelled by the `isSerializable`
guard in `pyJsonDumps` (the datetime/tzlocal equations below are therefore
never observed through `pyJsonDumps`). -/
def renderJson : PyVal → String
  | .str s => quoteJson s
  | .num n => intRepr n
  | .bool b => if b then "true" else "false"
  | .pynone => "null"
  | .datetime i => quoteJson i
  | .tzlocal => "null"
  | .dict fs => "\x7b" ++ renderFields fs ++ "\x7d"
  | .list xs => "[" ++ renderItems xs ++ "]"

/-- Rendering of the members of a JSON object. -/
def renderFields : PyFields → String
  | .nil => ""
  | .cons k v .nil => quoteJson k ++ ": " ++ renderJson v
  | .cons k v (.cons k2 v2 rest) =>
    quoteJson k ++ ": " ++ renderJson v ++ ", " ++ renderFields (.cons k2 v2 rest)

/-- Rendering of the elements of a JSON array. -/
def renderItems : PyItems → String
  | .nil => ""
  | .cons v .nil => renderJson v
  | .cons v (.cons v2 rest) => renderJson v ++ ", " ++ renderItems (.cons v2 rest)

end

mutual

/-- Whether `json.dumps` accepts the value (no datetime / tzlocal inside). -/
def isSerializable : PyVal → Bool
  | .str _ => true
  | .num _ => true
  | .bool _ => true
  | .pynone => true
  | .datetime _ => false
  | .tzlocal => false
  | .dict fs => serializableFields fs
  | .list xs => serializableItems xs

/-- `isSerializable` over object members. -/
def serializableFields : PyFields → Bool
  | .nil => true
  | .cons _ v rest => isSerializable v && serializableFields rest

/-- `isSerializable` over array elements. -/
def serializableItems : PyItems → Bool
  | .nil => true
  | .cons v rest => isSerializable v && serializableItems rest

end

/-- `"UTC+08:00"`-style rendering of a raw `%z` offset string such as
`"+0800"` (server.py line 38: `f"UTC\x7boffset[:3]\x7d:\x7boffset[3:]\x7d"`). -/
def tzOffsetFormat (offset : String) : String :=
  "UTC" ++ String.mk (offset.data.take 3) ++ ":" ++ String.mk (offset.data.drop 3)

mutual

/-- `convert_datetime_fields` (server.py lines 27-39): recursively turn
datetime values into their ISO string and tzlocal markers into
`"UTC±HH:MM"` derived from the current offset `off`; everything else is
kept, with dict keys and list order preserved. -/
def convert_datetime_fields (off : String) : PyVal → PyVal
  | .dict fs => .dict (convertFields off fs)
  | .list xs => .list (convertItems off xs)
  | .datetime iso => .str iso
  | .tzlocal => .str (tzOffsetFormat off)
  | .str s => .str s
  | .num n => .num n
  | .bool b => .bool b
  | .pynone => .pynone

/-- `convert_datetime_fields` over the values of a dict. -/
def convertFields (off : String) : PyFields → PyFields
  | .nil => .nil
  | .cons k v rest => .cons k (convert_datetime_fields off v) (convertFields off rest)

/-- `convert_datetime_fields` over the items of a list. -/
def convertItems (off : String) : PyItems → PyItems
  | .nil => .nil
  | .cons v rest => .cons (convert_datetime_fields off v) (convertItems off rest)

end

mutual

/-- `repr(v)`; container and temporal cases are approximations (see header). -/
def pyRepr : PyVal → String
  | .str s => "\x27" ++ s ++ "\x27"
  | .num n => intRepr n
  | .bool b => if b then "True" else "False"
  | .pynone => "None"
  | .datetime i => "datetime(" ++ i ++ ")"
  | .tzlocal => "tzlocal()"
  | .dict fs => "\x7b" ++ pyReprFields fs ++ "\x7d"
  | .list xs => "[" ++ pyReprItems xs ++ "]"

/-- `repr` of dict members. -/
def pyReprFields : PyFields → String
  | .nil => ""
  | .cons k v .nil => "\x27" ++ k ++ "\x27: " ++ pyRepr v
  | .cons k v (.cons k2 v2 rest) =>
    "\x27" ++ k ++ "\x27: " ++ pyRepr v ++ ", " ++ pyReprFields (.cons k2 v2 rest)

/-- `repr` of list elements. -/
def pyReprItems : PyItems → String
  | .nil => ""
  | .cons v .nil => pyRepr v
  | .cons v (.cons v2 rest) => pyRepr v ++ ", " ++ pyReprItems (.cons v2 rest)

end

/-- `str(v)`, as used inside the server's f-strings. -/
def pyStr : PyVal → String
  | .str s => s
  | .datetime i => i
  | v => pyRepr v

/-- Python `\s` whitespace (ASCII part), for `str.strip` and `re` `\s*`. -/
def isPySpace (c : Char) : Bool :=
  c == ' ' || c == '\t' || c == '\n' || c == '\r' || c == Char.ofNat 11 || c == Char.ofNat 12

/-- Digit-group tail of a Python int literal: digits with single underscores
allowed between digits. Accumulates onto `acc`. -/
def digitsValGo : Nat → List Char → Option Nat
  | acc, [] => some acc
  | acc, '_' :: c :: rest =>
    if c.isDigit then digitsValGo (acc * 10 + (c.toNat - 48)) rest else none
  | acc, c :: rest =>
    if c.isDigit then digitsValGo (acc * 10 + (c.toNat - 48)) rest else none

/-- A non-empty digit group (first char must be a digit). -/
def parseDigitsGroup : List Char → Option Nat
  | [] => none
  | c :: rest => if c.isDigit then digitsValGo (c.toNat - 48) rest else none

/-- `int(s)` for a string: strip whitespace, optional sign, decimal digits
(with Python 3 underscore grouping). -/
def parsePyInt (s : String) : Option Int :=
  let t := ((s.data.dropWhile isPySpace).reverse.dropWhile isPySpace).reverse
  match t with
  | '+' :: rest => (parseDigitsGroup rest).map Int.ofNat
  | '-' :: rest => (parseDigitsGroup rest).map (fun n => -(n : Int))
  | rest => (parseDigitsGroup rest).map Int.ofNat

/-- Base64 alphabet. -/
def b64Chars : List Char :=
  "ABCDEFGHIJKLMNOPQRSTUVWXYZabcdefghijklmnopqrstuvwxyz0123456789+/".data

/-- One base64 alphabet character. -/
def b64c (n : Nat) : Char := b64Chars.getD n 'A'

/-- Base64 of a byte list. -/
def b64Go : List Nat → List Char
  | [] => []
  | [b1] => [b64c (b1 / 4), b64c (b1 % 4 * 16), '=', '=']
  | [b1, b2] => [b64c (b1 / 4), b64c (b1 % 4 * 16 + b2 / 16), b64c (b2 % 16 * 4), '=']
  | b1 :: b2 :: b3 :: rest =>
    b64c (b1 / 4) :: b64c (b1 % 4 * 16 + b2 / 16) :: b64c (b2 % 16 * 4 + b3 / 64) ::
      b64c (b3 % 64) :: b64Go rest

/-- `base64.b64encode(s.encode()).decode()`. -/
def b64encode (s : String) : String :=
  ⟨b64Go (s.toUTF8.toList.map (fun b => b.toNat))⟩

/-- An HTTP response as seen through `requests`: status code, raw text body,
and the result of `.json()` (`none` models a body that fails to parse, in
which case `.json()` raises). -/
structure Response where
  status_code : Nat
  text : String
  jsonBody : Option PyVal

/-- Python exceptions that can flow through the server. -/
inductive Exc where
  | valueError (msg : String)
  | typeError (msg : String)
  | keyError (key : String)
  | attributeError (msg : String)
  | requestException (msg : String) (resp : Option Response)

/-- `str(e)` (for `KeyError`, Python shows the quoted key). -/
def strExc : Exc → String
  | .valueError m => m
  | .typeError m => m
  | .keyError k => "\x27" ++ k ++ "\x27"
  | .attributeError m => m
  | .requestException m _ => m

/-- An outgoing HTTP request: method, URL, headers, query params, form data. -/
structure Request where
  method : String
  url : String
  headers : List (String × String)
  params : List (String × PyVal)
  formData : List (String × PyVal)

/-- A raised `requests.exceptions.RequestException`: message and the optional
attached response (`e.response`). -/
structure ReqFailure where
  msg : String
  response : Option Response

/-- The HTTP layer: every `requests.get`/`requests.post` either returns a
response or raises a `RequestException`. -/
def Oracle := Request → Except ReqFailure Response

/-- `response.json()`: parsed body or a raised `ValueError`. -/
def respJson (r : Response) : Except Exc PyVal :=
  match r.jsonBody with
  | some v => .ok v
  | none => .error (.valueError "Expecting value: line 1 column 1 (char 0)")

/-- `json.dumps`: the rendered text when the value is serializable, a raised
`TypeError` otherwise. -/
def pyJsonDumps (v : PyVal) : Except Exc String :=
  if isSerializable v then .ok (renderJson v) else
    .error (.typeError "Object of type datetime is not JSON serializable")

/-- The guard raised by an f-string slice `v[:n]` on a non-sliceable value. -/
def sliceGuard (v : PyVal) : Except Exc Unit :=
  if pySliceable v then .ok () else
    .error (.typeError (pyTypeName v ++ " object is not subscriptable"))

/-- The `ZoomClient` state (server.py lines 41-51).  Field mutations that the
original performs on `self` (token updates on a successful refresh) do not
affect any returned value, because the dispatcher builds a fresh client per
call; they are not tracked here. -/
structure ZoomClient where
  access_token : PyVal
  refresh_token : PyVal
  client_id : PyVal
  client_secret : PyVal
  base_url : String

/-- `ZoomClient.__init__` (server.py lines 42-51): requires at least one of
access/refresh token to be truthy. -/
def ZoomClient.init (access_token refresh_token client_id client_secret : PyVal) :
    Except Exc ZoomClient :=
  if !pyTruthy access_token && !pyTruthy refresh_token then
    .error (.valueError "Either access_token or refresh_token must be provided")
  else
    .ok ⟨access_token, refresh_token, client_id, client_secret, "https://api.zoom.us/v2"⟩

/-- `ZoomClient._get_headers` (server.py lines 53-58). -/
def ZoomClient.get_headers (c : ZoomClient) : List (String × String) :=
  [("Authorization", "Bearer " ++ pyStr c.access_token),
   ("Content-Type", "application/json")]

/-- `ZoomClient._handle_token_refresh` (server.py lines 60-81): catch a
`RequestException` and turn it into an error JSON string (the 401 branch
requires a raised exception carrying a 401 response); every other exception
propagates.  All three produced objects are string-only, hence serializable,
so `json.dumps` is modelled by `renderJson` directly. -/
def handle_token_refresh (r : Except Exc String × List Request) :
    Except Exc String × List Request :=
  match r with
  | (.ok s, calls) => (.ok s, calls)
  | (.error (.requestException msg (some rr)), calls) =>
    if rr.status_code == 401 then
      (.ok (renderJson (.dict (.cons "error"
        (.str "Unauthorized. Token might be expired. Try refreshing your token.")
        (.cons "details" (.str msg) .nil)))), calls)
    else
      (.ok (renderJson (.dict (.cons "error"
        (.str ("Zoom API error: " ++ natRepr rr.status_code))
        (.cons "details" (.str msg) .nil)))), calls)
  | (.error (.requestException msg none), calls) =>
    (.ok (renderJson (.dict (.cons "error" (.str "Request to Zoom API failed")
      (.cons "details" (.str msg) .nil)))), calls)
  | (.error e, calls) => (.error e, calls)

/-- The resource operations' outermost `except Exception` (server.py lines
213-215, 252-254, 329-331): `json.dumps(\x7b"error": str(e)\x7d)` — no
`status` field. -/
def outer_catch (r : Except Exc String) : String :=
  match r with
  | .ok s => s
  | .error e => renderJson (.dict (.cons "error" (.str (strExc e)) .nil))

/-- `refresh_access_token`'s own `except Exception` (server.py lines
155-160): unlike the three resource operations it adds `status: "error"`. -/
def refresh_catch (r : Except Exc String) : String :=
  match r with
  | .ok s => s
  | .error e =>
    renderJson (.dict (.cons "error" (.str (strExc e))
      (.cons "status" (.str "error") .nil)))

/-- `timedelta(seconds=v)`: accepts numbers (bools are ints in Python),
raises `TypeError` otherwise. -/
def timedeltaSeconds : PyVal → Except Exc Int
  | .num n => .ok n
  | .bool b => .ok (if b then 1 else 0)
  | v => .error (.typeError ("unsupported type for timedelta seconds component: " ++ pyTypeName v))

/-- The OAuth token POST request (server.py lines 104-123). -/
def tokenRequest (c : ZoomClient) (client_id client_secret : PyVal) : Request :=
  { method := "POST"
    url := "https://zoom.us/oauth/token"
    headers :=
      [("Authorization", "Basic " ++ b64encode (pyStr client_id ++ ":" ++ pyStr client_secret)),
       ("Content-Type", "application/x-www-form-urlencoded")]
    params := []
    formData := [("grant_type", .str "refresh_token"), ("refresh_token", c.refresh_token)] }

/-- Body of `refresh_access_token`'s `try:` block (server.py lines 98-153).
`clock n` is the ISO string of `datetime.now() + timedelta(seconds=n)`. -/
def refresh_try (c : ZoomClient) (client_id client_secret : PyVal) (o : Oracle)
    (clock : Int → String) : Except Exc String × List Request :=
  -- the logging f-string at line 116 slices `self.refresh_token[:10]`
  match sliceGuard c.refresh_token with
  | .error e => (.error e, [])
  | .ok _ =>
  let req := tokenRequest c client_id client_secret
  match o req with
  | .error f => (.error (.requestException f.msg f.response), [req])
  | .ok resp =>
    if resp.status_code == 200 then
      match respJson resp with
      | .error e => (.error e, [req])
      | .ok result =>
        match result with
        | .dict fields =>
          match fget fields "access_token" with
          | none => (.error (.keyError "access_token"), [req])
          | some access_token =>
            let refresh_token := (fget fields "refresh_token").getD c.refresh_token
            let expires_in := (fget fields "expires_in").getD (.num 3600)
            match timedeltaSeconds expires_in with
            | .error e => (.error e, [req])
            | .ok secs =>
              (pyJsonDumps (.dict (.cons "access_token" access_token
                (.cons "refresh_token" refresh_token
                (.cons "expires_at" (.str (clock secs))
                (.cons "expires_in" expires_in
                (.cons "status" (.str "success") .nil)))))), [req])
        | other => (.error (.typeError (pyTypeName other ++ " indices must be strings")), [req])
    else
      (.ok (renderJson (.dict (.cons "error"
        (.str ("Failed to refresh token. Status code: " ++ natRepr resp.status_code))
        (.cons "details" (.str resp.text)
        (.cons "raw_response" (.str resp.text)
        (.cons "status" (.str "error") .nil)))))), [req])

/-- `ZoomClient.refresh_access_token` (server.py lines 83-160).  The logging
line 90 slices `client_id[:5]` before the `try:` block, so a `TypeError`
raised there escapes the method (hence the `Except` in the result); the
missing-refresh-token check precedes any HTTP call. -/
def refresh_access_token (c : ZoomClient) (client_id client_secret : PyVal)
    (o : Oracle) (clock : Int → String) : Except Exc String × List Request :=
  match sliceGuard client_id with
  | .error e => (.error e, [])
  | .ok _ =>
  if !pyTruthy c.refresh_token then
    (.ok (renderJson (.dict (.cons "error" (.str "No refresh token provided")
      (.cons "status" (.str "error") .nil)))), [])
  else
    let (r, calls) := refresh_try c client_id client_secret o clock
    (.ok (refresh_catch r), calls)

/-- Query parameters of the recordings listing (server.py lines 181-189):
`page_size` clamped with `min(page_size, 300)`, then `page_number`, then the
optional truthy `from`/`to` filters, in insertion order. -/
def recordingsParams (from_date to_date : PyVal) (page_size page_number : Int) :
    List (String × PyVal) :=
  let base := [("page_size", PyVal.num (min page_size 300)),
               ("page_number", PyVal.num page_number)]
  let withFrom := if pyTruthy from_date then base ++ [("from", from_date)] else base
  if pyTruthy to_date then withFrom ++ [("to", to_date)] else withFrom

/-- The listing GET request (server.py lines 192-196). -/
def userRecordingsRequest (c : ZoomClient) (from_date to_date : PyVal)
    (page_size page_number : Int) : Request :=
  { method := "GET"
    url := c.base_url ++ "/users/me/recordings"
    headers := c.get_headers
    params := recordingsParams from_date to_date page_size page_number
    formData := [] }

/-- `_operation` of `list_recordings` (server.py lines 177-208). -/
def list_recordings_op (c : ZoomClient) (o : Oracle) (off : String)
    (from_date to_date : PyVal) (page_size page_number : Int) :
    Except Exc String × List Request :=
  let req := userRecordingsRequest c from_date to_date page_size page_number
  match o req with
  | .error f => (.error (.requestException f.msg f.response), [req])
  | .ok resp =>
    if resp.status_code != 200 then
      (.ok (renderJson (.dict (.cons "error"
        (.str ("Failed to retrieve recordings. Status code: " ++ natRepr resp.status_code))
        (.cons "details" (.str resp.text)
        (.cons "status" (.str "error") .nil))))), [req])
    else
      match respJson resp with
      | .error e => (.error e, [req])
      | .ok recordings_data =>
        (pyJsonDumps (convert_datetime_fields off recordings_data), [req])

/-- `ZoomClient.list_recordings` (server.py lines 162-215). -/
def list_recordings (c : ZoomClient) (o : Oracle) (off : String)
    (from_date to_date : PyVal) (page_size page_number : Int) :
    String × List Request :=
  let (r, calls) :=
    handle_token_refresh (list_recordings_op c o off from_date to_date page_size page_number)
  (outer_catch r, calls)

/-- The per-meeting recordings GET request (server.py lines 232-235 / 271-274). -/
def meetingRecordingsRequest (c : ZoomClient) (meeting_id : PyVal) : Request :=
  { method := "GET"
    url := c.base_url ++ "/meetings/" ++ pyStr meeting_id ++ "/recordings"
    headers := c.get_headers
    params := []
    formData := [] }

/-- `_operation` of `get_recording_details` (server.py lines 228-247). -/
def get_recording_details_op (c : ZoomClient) (meeting_id : PyVal) (o : Oracle)
    (off : String) : Except Exc String × List Request :=
  let req := meetingRecordingsRequest c meeting_id
  match o req with
  | .error f => (.error (.requestException f.msg f.response), [req])
  | .ok resp =>
    if resp.status_code != 200 then
      (.ok (renderJson (.dict (.cons "error"
        (.str ("Failed to retrieve recording details. Status code: " ++ natRepr resp.status_code))
        (.cons "details" (.str resp.text)
        (.cons "status" (.str "error") .nil))))), [req])
    else
      match respJson resp with
      | .error e => (.error e, [req])
      | .ok recording_details =>
        (pyJsonDumps (convert_datetime_fields off recording_details), [req])

/-- `ZoomClient.get_recording_details` (server.py lines 217-254). -/
def get_recording_details (c : ZoomClient) (meeting_id : PyVal) (o : Oracle)
    (off : String) : String × List Request :=
  let (r, calls) := handle_token_refresh (get_recording_details_op c meeting_id o off)
  (outer_catch r, calls)

/-- Whether `p` is a leading segment of `s`. -/
def isPre : List Char → List Char → Bool
  | [], _ => true
  | _ :: _, [] => false
  | c :: cs, d :: ds => c == d && isPre cs ds

/-- Whether `needle` occurs contiguously inside the second list
(Python `needle in haystack` for strings). -/
def containsSub (needle : List Char) : List Char → Bool
  | [] => needle.isEmpty
  | c :: rest => isPre needle (c :: rest) || containsSub needle rest

/-- String-equality membership among list items (only a string can equal a
string in Python). -/
def itemsHasStr : PyItems → String → Bool
  | .nil, _ => false
  | .cons (.str s) rest, k => s == k || itemsHasStr rest k
  | .cons _ rest, k => itemsHasStr rest k

/-- `k in v` for an arbitrary value: key membership for dicts, element
membership for lists, substring for strings, `TypeError` otherwise. -/
def pyContains (v : PyVal) (key : String) : Except Exc Bool :=
  match v with
  | .dict fs => .ok (fhas fs key)
  | .list xs => .ok (itemsHasStr xs key)
  | .str s => .ok (containsSub key.data s.data)
  | _ => .error (.typeError ("argument of type " ++ pyTypeName v ++ " is not iterable"))

/-- `v[key]` for a string key. -/
def pyGetItem (v : PyVal) (key : String) : Except Exc PyVal :=
  match v with
  | .dict fs =>
    match fget fs key with
    | some x => .ok x
    | none => .error (.keyError key)
  | .list _ => .error (.typeError "list indices must be integers or slices, not str")
  | .str _ => .error (.typeError "string indices must be integers")
  | other => .error (.typeError (pyTypeName other ++ " object is not subscriptable"))

/-- `for x in v`: list elements, string characters, dict keys; `TypeError`
otherwise. -/
def pyIterate (v : PyVal) : Except Exc (List PyVal) :=
  match v with
  | .list xs => .ok (itemsToList xs)
  | .str s => .ok (s.data.map (fun ch => PyVal.str (String.singleton ch)))
  | .dict fs => .ok ((fkeys fs).map PyVal.str)
  | other => .error (.typeError (pyTypeName other ++ " object is not iterable"))

/-- `v.get(key, dflt)`: only dicts have `.get`; anything else raises
`AttributeError`. -/
def pyGetAttr (v : PyVal) (key : String) (dflt : PyVal) : Except Exc PyVal :=
  match v with
  | .dict fs => .ok ((fget fs key).getD dflt)
  | other => .error (.attributeError (pyTypeName other ++ " object has no attribute get"))

/-- The list comprehension at server.py lines 288-289: keep the files whose
`file_type` is `"TRANSCRIPT"`; a non-dict element raises (`.get`). -/
def filter_transcripts : List PyVal → Except Exc (List PyVal)
  | [] => .ok []
  | f :: rest =>
    match f with
    | .dict fs =>
      match filter_transcripts rest with
      | .error e => .error e
      | .ok tail =>
        match fget fs "file_type" with
        | some (.str t) => .ok (if t == "TRANSCRIPT" then .dict fs :: tail else tail)
        | _ => .ok tail
    | other => .error (.attributeError (pyTypeName other ++ " object has no attribute get"))

/-- Server.py lines 286-289: the `recording_files` membership test followed by
the transcript-type filter. -/
def find_transcript_files (recordings_data : PyVal) : Except Exc (List PyVal) :=
  match pyContains recordings_data "recording_files" with
  | .error e => .error e
  | .ok b =>
    if b then
      match pyGetItem recordings_data "recording_files" with
      | .error e => .error e
      | .ok v =>
        match pyIterate v with
        | .error e => .error e
        | .ok elems => filter_transcripts elems
    else .ok []

/-- The transcript download GET request (server.py lines 304-307). -/
def downloadRequest (c : ZoomClient) (url : String) : Request :=
  { method := "GET", url := url, headers := c.get_headers, params := [], formData := [] }

/-- One appended transcript entry (server.py lines 310-316). -/
def transcriptEntry (f : PyVal) (content : String) : Except Exc PyVal :=
  match pyGetAttr f "id" (.str "") with
  | .error e => .error e
  | .ok fid =>
    match pyGetAttr f "file_name" (.str "") with
    | .error e => .error e
    | .ok fname =>
      match pyGetAttr f "recording_start" (.str "") with
      | .error e => .error e
      | .ok rstart =>
        match pyGetAttr f "recording_end" (.str "") with
        | .error e => .error e
        | .ok rend =>
          .ok (.dict (.cons "file_id" fid (.cons "file_name" fname
            (.cons "recording_start" rstart (.cons "recording_end" rend
            (.cons "content" (.str content) .nil))))))

/-- The download loop of `get_meeting_transcript` (server.py lines 298-316):
for each file carrying a `download_url`, GET it and keep an entry only when
the download returned 200. -/
def download_transcripts (c : ZoomClient) (o : Oracle) :
    List PyVal → Except Exc (List PyVal) × List Request
  | [] => (.ok [], [])
  | f :: rest =>
    match pyContains f "download_url" with
    | .error e => (.error e, [])
    | .ok b =>
      if b then
        match pyGetItem f "download_url" with
        | .error e => (.error e, [])
        | .ok urlv =>
          let req := downloadRequest c (pyStr urlv)
          match o req with
          | .error fail => (.error (.requestException fail.msg fail.response), [req])
          | .ok resp =>
            if resp.status_code == 200 then
              match transcriptEntry f resp.text with
              | .error e => (.error e, [req])
              | .ok entry =>
                let (tailR, tailCalls) := download_transcripts c o rest
                match tailR with
                | .error e => (.error e, req :: tailCalls)
                | .ok tail => (.ok (entry :: tail), req :: tailCalls)
            else
              let (tailR, tailCalls) := download_transcripts c o rest
              (tailR, req :: tailCalls)
      else download_transcripts c o rest

/-- `_operation` of `get_meeting_transcript` (server.py lines 267-324). -/
def get_meeting_transcript_op (c : ZoomClient) (meeting_id : PyVal) (o : Oracle)
    (off : String) : Except Exc String × List Request :=
  let req := meetingRecordingsRequest c meeting_id
  match o req with
  | .error f => (.error (.requestException f.msg f.response), [req])
  | .ok resp =>
    if resp.status_code != 200 then
      (.ok (renderJson (.dict (.cons "error"
        (.str ("Failed to retrieve recording information. Status code: " ++ natRepr resp.status_code))
        (.cons "details" (.str resp.text)
        (.cons "status" (.str "error") .nil))))), [req])
    else
      match respJson resp with
      | .error e => (.error e, [req])
      | .ok recordings_data =>
        match find_transcript_files recordings_data with
        | .error e => (.error e, [req])
        | .ok transcript_files =>
          if transcript_files.isEmpty then
            (.ok (renderJson (.dict (.cons "error"
              (.str "No transcript files found for this meeting")
              (.cons "status" (.str "error") .nil)))), [req])
          else
            let (tr, dlCalls) := download_transcripts c o transcript_files
            match tr with
            | .error e => (.error e, req :: dlCalls)
            | .ok transcripts =>
              match pyGetAttr recordings_data "topic" (.str "") with
              | .error e => (.error e, req :: dlCalls)
              | .ok topic =>
                match pyGetAttr recordings_data "duration" (.num 0) with
                | .error e => (.error e, req :: dlCalls)
                | .ok duration =>
                  (pyJsonDumps (.dict (.cons "meeting_id" meeting_id
                    (.cons "topic" topic
                    (.cons "meeting_duration" duration
                    (.cons "transcripts"
                      (convert_datetime_fields off (.list (listToItems transcripts)))
                    (.cons "status" (.str "success") .nil)))))), req :: dlCalls)

/-- `ZoomClient.get_meeting_transcript` (server.py lines 256-331). -/
def get_meeting_transcript (c : ZoomClient) (meeting_id : PyVal) (o : Oracle)
    (off : String) : String × List Request :=
  let (r, calls) := handle_token_refresh (get_meeting_transcript_op c meeting_id o off)
  (outer_catch r, calls)

/-- `int(v)` (the dispatcher's conversions at server.py lines 511-512):
ints pass through, bools are ints, strings are parsed, everything else
raises `TypeError`. -/
def pyToInt : PyVal → Except Exc Int
  | .num n => .ok n
  | .bool b => .ok (if b then 1 else 0)
  | .str s =>
    match parsePyInt s with
    | some n => .ok n
    | none => .error (.valueError ("invalid literal for int() with base 10: " ++ "\x27" ++ s ++ "\x27"))
  | v => .error (.typeError ("int() argument must be a string or a real number, not " ++ pyTypeName v))

/-- Drop `p` from the front of `s`, or fail. -/
def stripPre : List Char → List Char → Option (List Char)
  | [], s => some s
  | _ :: _, [] => none
  | c :: cs, d :: ds => if c == d then stripPre cs ds else none

/-- The literal head of the pattern `` `label`: `` used at server.py lines
435-437. -/
def backtickPatternHead (label : String) : List Char :=
  '`' :: label.data ++ ['`', ':']

/-- Try the regex `` `label`:\s*`([^`]+)` `` anchored at the start of `s`,
returning the capture. -/
def matchKeyValueAt (label : String) (s : List Char) : Option String :=
  match stripPre (backtickPatternHead label) s with
  | none => none
  | some r1 =>
    match r1.dropWhile isPySpace with
    | '`' :: r2 =>
      match r2.takeWhile (fun c => c != '`'), r2.dropWhile (fun c => c != '`') with
      | [], _ => none
      | cap, '`' :: _ => some ⟨cap⟩
      | _, _ => none
    | _ => none

/-- `re.search` of the pattern `` `label`:\s*`([^`]+)` ``: first position,
scanning left to right, where the pattern matches. -/
def reSearchBacktick (label : String) : List Char → Option String
  | [] => none
  | c :: rest =>
    match matchKeyValueAt label (c :: rest) with
    | some v => some v
    | none => reSearchBacktick label rest

/-- The argument-repair heuristic of `handle_call_tool` (server.py lines
424-455): when the tool is `zoom_refresh_token` and exactly one argument key
was supplied whose text contains all three backtick-quoted field names, and
all three regex extractions succeed, replace the arguments by the three
extracted values; otherwise keep the arguments unchanged.  (The surrounding
`try` never fires: nothing in the transform raises.) -/
def fix_refresh_arguments (name : String) (args : PyFields) : PyFields :=
  if name == "zoom_refresh_token" && flen args == 1 then
    match args with
    | .cons key _ _ =>
      if containsSub "`zoom_refresh_token`".data key.data &&
         containsSub "`zoom_client_id`".data key.data &&
         containsSub "`zoom_client_secret`".data key.data then
        match reSearchBacktick "zoom_refresh_token" key.data,
              reSearchBacktick "zoom_client_id" key.data,
              reSearchBacktick "zoom_client_secret" key.data with
        | some rt, some cid, some cs =>
          .cons "zoom_refresh_token" (.str rt)
            (.cons "zoom_client_id" (.str cid)
            (.cons "zoom_client_secret" (.str cs) .nil))
        | _, _, _ => args
      else args
    | .nil => args
  else args

/-- `arguments.get(k)` in the dispatcher: the value, or Python `None`. -/
def getArg (args : PyFields) (k : String) : PyVal := (fget args k).getD .pynone

/-- `arguments.get(k, d)` with an explicit default. -/
def getArgD (args : PyFields) (k : String) (d : PyVal) : PyVal := (fget args k).getD d

/-- The guard raised by the logging f-string
`x[:n] if x else None` (server.py line 464): slices only truthy values. -/
def condSliceGuard (v : PyVal) : Except Exc Unit :=
  if pyTruthy v then sliceGuard v else .ok ()

/-- One protocol text segment (`types.TextContent`). -/
structure TextContent where
  text : String

/-- The inner `try` of the `zoom_list_recordings` branch (server.py lines
503-521): client construction, `int(...)` conversions and the facade call,
with `except Exception` rendered as a plain `f"Error: ..."` text. -/
def list_recordings_branch (access_token : PyVal) (args : PyFields) (o : Oracle)
    (off : String) : String :=
  match ZoomClient.init access_token .pynone .pynone .pynone with
  | .error e => "Error: " ++ strExc e
  | .ok zoom =>
    let from_date := getArg args "from_date"
    let to_date := getArg args "to_date"
    match pyToInt (getArgD args "page_size" (.num 30)) with
    | .error e => "Error: " ++ strExc e
    | .ok page_size =>
      match pyToInt (getArgD args "page_number" (.num 1)) with
      | .error e => "Error: " ++ strExc e
      | .ok page_number =>
        (list_recordings zoom o off from_date to_date page_size page_number).1

/-- Body of `handle_call_tool`'s outermost `try` (server.py lines 414-552);
a returned `.error` is what the final `except Exception` (line 554-555)
catches. -/
def handle_call_tool_body (o : Oracle) (clock : Int → String) (off : String)
    (name : String) (arguments : Option PyFields) :
    Except Exc (List TextContent) :=
  -- line 417 logs `json.dumps(arguments) if arguments else None`
  match arguments with
  | none => .error (.valueError ("Missing arguments for " ++ name))
  | some args0 =>
    if !pyTruthy (.dict args0) then .error (.valueError ("Missing arguments for " ++ name))
    else
      match pyJsonDumps (.dict args0) with
      | .error e => .error e
      | .ok _ =>
        let args := fix_refresh_arguments name args0
        if name == "zoom_refresh_token" then
          let refresh_token := getArg args "zoom_refresh_token"
          let client_id := getArg args "zoom_client_id"
          let client_secret := getArg args "zoom_client_secret"
          let access_token := getArg args "zoom_access_token"
          -- line 464 logging slices refresh_token[:10] and client_id[:5]
          match condSliceGuard refresh_token with
          | .error e => .error e
          | .ok _ =>
            match condSliceGuard client_id with
            | .error e => .error e
            | .ok _ =>
              if !pyTruthy refresh_token then
                .error (.valueError "zoom_refresh_token is required for token refresh")
              else if !pyTruthy client_id || !pyTruthy client_secret then
                .error (.valueError "Both zoom_client_id and zoom_client_secret are required for token refresh")
              else
                match ZoomClient.init access_token refresh_token .pynone .pynone with
                | .error e => .error e
                | .ok zoom =>
                  -- inner try (lines 480-491)
                  match (refresh_access_token zoom client_id client_secret o clock).1 with
                  | .ok results => .ok [⟨results⟩]
                  | .error e =>
                    .ok [⟨renderJson (.dict (.cons "error" (.str (strExc e))
                      (.cons "status" (.str "error") .nil)))⟩]
        else
          let access_token := getArg args "zoom_access_token"
          if !pyTruthy access_token then .error (.valueError "zoom_access_token is required")
          else if name == "zoom_list_recordings" then
            -- line 502 logging slices access_token[:10] before the inner try
            match sliceGuard access_token with
            | .error e => .error e
            | .ok _ => .ok [⟨list_recordings_branch access_token args o off⟩]
          else if name == "zoom_get_recording_details" then
            match ZoomClient.init access_token .pynone .pynone .pynone with
            | .error e => .error e
            | .ok zoom =>
              let meeting_id := getArg args "meeting_id"
              if !pyTruthy meeting_id then .error (.valueError "meeting_id is required")
              else .ok [⟨(get_recording_details zoom meeting_id o off).1⟩]
          else if name == "zoom_get_meeting_transcript" then
            match ZoomClient.init access_token .pynone .pynone .pynone with
            | .error e => .error e
            | .ok zoom =>
              let meeting_id := getArg args "meeting_id"
              if !pyTruthy meeting_id then .error (.valueError "meeting_id is required")
              else .ok [⟨(get_meeting_transcript zoom meeting_id o off).1⟩]
          else .error (.valueError ("Unknown tool: " ++ name))

/-- `handle_call_tool` (server.py lines 409-555): dispatch plus the final
`except Exception` that renders any escaped exception as the plain text
`Error: <message>`. -/
def handle_call_tool (o : Oracle) (clock : Int → String) (off : String)
    (name : String) (arguments : Option PyFields) : List TextContent :=
  match handle_call_tool_body o clock off name arguments with
  | .ok reply => reply
  | .error e => [⟨"Error: " ++ strExc e⟩]

/-! ## Shared test fixtures and helper lemmas -/

/-- A stub oracle (never consulted on the paths it is used for). -/
def oStub : Oracle := fun _ => .ok ⟨200, "", none⟩

/-- A fixed clock. -/
def clk0 : Int → String := fun _ => "2026-01-01T00:00:00"

/-- A fixed `%z` offset. -/
def off0 : String := "+0800"

/-- A client holding only an access token, as the dispatcher builds for the
three resource tools. -/
def cFix : ZoomClient := ⟨.str "tok", .pynone, .pynone, .pynone, "https://api.zoom.us/v2"⟩

mutual

/-- Idempotence of the normalizer, value case. -/
def convertIdemV (o1 o2 : String) :
    (v : PyVal) → convert_datetime_fields o2 (convert_datetime_fields o1 v) =
      convert_datetime_fields o1 v
  | .str _ => rfl
  | .num _ => rfl
  | .bool _ => rfl
  | .pynone => rfl
  | .datetime _ => rfl
  | .tzlocal => rfl
  | .dict fs => congrArg PyVal.dict (convertIdemF o1 o2 fs)
  | .list xs => congrArg PyVal.list (convertIdemI o1 o2 xs)

/-- Idempotence of the normalizer, dict case. -/
def convertIdemF (o1 o2 : String) :
    (fs : PyFields) → convertFields o2 (convertFields o1 fs) = convertFields o1 fs
  | .nil => rfl
  | .cons k v rest => by
      simp only [convertFields]
      rw [convertIdemV o1 o2 v, convertIdemF o1 o2 rest]

/-- Idempotence of the normalizer, list case. -/
def convertIdemI (o1 o2 : String) :
    (xs : PyItems) → convertItems o2 (convertItems o1 xs) = convertItems o1 xs
  | .nil => rfl
  | .cons v rest => by
      simp only [convertItems]
      rw [convertIdemV o1 o2 v, convertIdemI o1 o2 rest]

end

/-- C5: the response normalizer `convert_datetime_fields` is idempotent: a
second pass (even with a different current-timezone offset, since the offset
is sampled at call time) is a no-op, because after the first pass no datetime
or tzlocal values remain. -/
theorem convert_datetime_fields_idempotent (off1 off2 : String) (v : PyVal) :
    convert_datetime_fields off2 (convert_datetime_fields off1 v) =
      convert_datetime_fields off1 v :=
  convertIdemV off1 off2 v

/-- C6: `refresh_access_token` on a client whose refresh token is absent
(Python `None` or the empty string) returns exactly the
`\x7b"error": "No refresh token provided", "status": "error"\x7d` object and
issues zero HTTP requests. -/
theorem refresh_access_token_no_refresh_token (c : ZoomClient) (cid csec : String)
    (o : Oracle) (clock : Int → String)
    (h : c.refresh_token = .pynone ∨ c.refresh_token = .str "") :
    refresh_access_token c (.str cid) (.str csec) o clock =
      (.ok (renderJson (.dict (.cons "error" (.str "No refresh token provided")
        (.cons "status" (.str "error") .nil)))), []) := by
  rcases h with h | h <;>
    simp [refresh_access_token, sliceGuard, pySliceable, pyTruthy, h]

/-- Witness for C6 at a concrete client (access token present, refresh token
`None`) and a concrete oracle. -/
theorem refresh_access_token_no_refresh_token_witness :
    refresh_access_token ⟨.str "atok", .pynone, .pynone, .pynone, "https://api.zoom.us/v2"⟩
      (.str "cid") (.str "csec") oStub clk0 =
      (.ok (renderJson (.dict (.cons "error" (.str "No refresh token provided")
        (.cons "status" (.str "error") .nil)))), []) :=
  refresh_access_token_no_refresh_token _ "cid" "csec" oStub clk0 (Or.inl rfl)

/-- `_handle_token_refresh` never changes the list of issued requests. -/
theorem handle_token_refresh_calls (p : Except Exc String × List Request) :
    (handle_token_refresh p).2 = p.2 := by
  rcases p with ⟨e | s, calls⟩
  · unfold handle_token_refresh
    cases e with
    | requestException msg resp =>
      cases resp with
      | none => rfl
      | some rr => by_cases h : rr.status_code == 401 <;> simp [h]
    | valueError m => rfl
    | typeError m => rfl
    | keyError k => rfl
    | attributeError m => rfl
  · rfl

/-- `list_recordings` issues exactly one HTTP request, the listing GET. -/
theorem list_recordings_op_calls (c : ZoomClient) (o : Oracle) (off : String)
    (fd td : PyVal) (ps pn : Int) :
    (list_recordings_op c o off fd td ps pn).2 =
      [userRecordingsRequest c fd td ps pn] := by
  rcases h : o (userRecordingsRequest c fd td ps pn) with f | resp <;>
    simp only [list_recordings_op, h]
  by_cases h2 : resp.status_code = 200
  · rcases hb : resp.jsonBody with _ | d <;> simp [respJson, h2, hb]
  · have hne : (resp.status_code != 200) = true := by simp [h2]
    simp [hne]

/-- C8: for every integer `page_size`, the single listing request carries the
query parameter `page_size = min(page_size, 300)`: values above 300 are
clamped to 300, values at or below 300 are sent unchanged. -/
theorem list_recordings_page_size_min (c : ZoomClient) (o : Oracle) (off : String)
    (fd td : PyVal) (ps pn : Int) :
    (list_recordings c o off fd td ps pn).2 = [userRecordingsRequest c fd td ps pn] ∧
    List.lookup "page_size" (userRecordingsRequest c fd td ps pn).params =
      some (.num (min ps 300)) ∧
    (300 < ps → List.lookup "page_size" (userRecordingsRequest c fd td ps pn).params =
      some (.num 300)) ∧
    (ps ≤ 300 → List.lookup "page_size" (userRecordingsRequest c fd td ps pn).params =
      some (.num ps)) := by
  refine ⟨?_, ?_, ?_, ?_⟩
  · show (handle_token_refresh (list_recordings_op c o off fd td ps pn)).2 = _
    rw [handle_token_refresh_calls, list_recordings_op_calls]
  · unfold userRecordingsRequest recordingsParams
    split <;> split <;> simp [List.lookup]
  · intro h
    unfold userRecordingsRequest recordingsParams
    rw [min_eq_right h.le]
    split <;> split <;> simp [List.lookup]
  · intro h
    unfold userRecordingsRequest recordingsParams
    rw [min_eq_left h]
    split <;> split <;> simp [List.lookup]

/-- Witness for C8: `page_size = 1000` is clamped to 300, `page_size = 30`
is sent unchanged. -/
theorem list_recordings_page_size_min_witness :
    (list_recordings cFix oStub off0 .pynone .pynone 1000 1).2 =
      [userRecordingsRequest cFix .pynone .pynone 1000 1] ∧
    List.lookup "page_size" (userRecordingsRequest cFix .pynone .pynone 1000 1).params =
      some (.num 300) ∧
    List.lookup "page_size" (userRecordingsRequest cFix .pynone .pynone 30 1).params =
      some (.num 30) :=
  ⟨(list_recordings_page_size_min cFix oStub off0 .pynone .pynone 1000 1).1,
   (list_recordings_page_size_min cFix oStub off0 .pynone .pynone 1000 1).2.2.1 (by decide),
   (list_recordings_page_size_min cFix oStub off0 .pynone .pynone 30 1).2.2.2 (by decide)⟩

/-- A 200 recordings listing whose single recording file is not a transcript. -/
def dNoT : PyVal :=
  .dict (.cons "topic" (.str "Mtg")
    (.cons "recording_files"
      (.list (.cons (.dict (.cons "file_type" (.str "MP4") .nil)) .nil)) .nil))

/-- Oracle serving `dNoT` for the meeting-recordings URL. -/
def oNoT : Oracle := fun r =>
  if r.url == "https://api.zoom.us/v2/meetings/m1/recordings" then
    .ok ⟨200, "raw", some dNoT⟩
  else .ok ⟨404, "nf", none⟩

/-- C7: when the recordings listing comes back with HTTP 200 but the
transcript filter finds nothing (`recording_files` absent, or present with
no `TRANSCRIPT`-typed file), `get_meeting_transcript` returns exactly the
`No transcript files found for this meeting` error object and issues only
the single listing request — no download call. -/
theorem get_meeting_transcript_no_transcripts (c : ZoomClient) (mid : PyVal)
    (o : Oracle) (off : String) (resp : Response) (d : PyVal)
    (h1 : o (meetingRecordingsRequest c mid) = .ok resp)
    (h2 : resp.status_code = 200)
    (h3 : resp.jsonBody = some d)
    (h4 : find_transcript_files d = .ok []) :
    get_meeting_transcript c mid o off =
      (renderJson (.dict (.cons "error" (.str "No transcript files found for this meeting")
        (.cons "status" (.str "error") .nil))), [meetingRecordingsRequest c mid]) := by
  unfold get_meeting_transcript get_meeting_transcript_op
  simp [h1, h2, h3, h4, respJson, handle_token_refresh, outer_catch]

/-- Witness for C7: a concrete meeting whose only recording file is an MP4. -/
theorem get_meeting_transcript_no_transcripts_witness :
    get_meeting_transcript cFix (.str "m1") oNoT off0 =
      (renderJson (.dict (.cons "error" (.str "No transcript files found for this meeting")
        (.cons "status" (.str "error") .nil))), [meetingRecordingsRequest cFix (.str "m1")]) :=
  get_meeting_transcript_no_transcripts cFix (.str "m1") oNoT off0
    ⟨200, "raw", some dNoT⟩ dNoT rfl rfl rfl rfl

/-- A successful `stripPre` implies the stripped pattern was a leading
segment. -/
theorem stripPre_isPre : ∀ (p s r : List Char), stripPre p s = some r → isPre p s = true := by
  intro p
  induction p with
  | nil => intro s r _; rfl
  | cons c cs ih =>
    intro s r h
    cases s with
    | nil => simp [stripPre] at h
    | cons d ds =>
      by_cases hc : c == d
      · simp only [stripPre, hc, if_true] at h
        simp [isPre, hc, ih ds r h]
      · simp [stripPre, hc] at h

/-- A leading segment of a longer pattern is still a leading segment after
dropping the pattern's tail. -/
theorem isPre_append_drop : ∀ (xs ys s : List Char), isPre (xs ++ ys) s = true → isPre xs s = true := by
  intro xs
  induction xs with
  | nil => intro ys s _; rfl
  | cons c cs ih =>
    intro ys s h
    cases s with
    | nil => simp [isPre] at h
    | cons d ds =>
      simp only [List.cons_append, isPre, Bool.and_eq_true] at h ⊢
      exact ⟨h.1, ih ys ds h.2⟩

/-- A successful backtick-pattern search implies the key text contains the
backtick-quoted label (the substring the dispatcher pre-checks with `in`). -/
theorem reSearch_contains (label : String) :
    ∀ (s : List Char) (r : String), reSearchBacktick label s = some r →
      containsSub ('`' :: label.data ++ ['`']) s = true := by
  intro s
  induction s with
  | nil => intro r h; simp [reSearchBacktick] at h
  | cons c rest ih =>
    intro r h
    simp only [reSearchBacktick] at h
    rcases hm : matchKeyValueAt label (c :: rest) with _ | v
    · rw [hm] at h
      simp only [containsSub]
      rw [ih r h]
      simp
    · have hs : ∃ r1, stripPre (backtickPatternHead label) (c :: rest) = some r1 := by
        rcases hst : stripPre (backtickPatternHead label) (c :: rest) with _ | r1
        · rw [matchKeyValueAt, hst] at hm; simp at hm
        · exact ⟨r1, rfl⟩
      rcases hs with ⟨r1, hs⟩
      have hpre := stripPre_isPre _ _ _ hs
      have hsplit : backtickPatternHead label = ('`' :: label.data ++ ['`']) ++ [':'] := by
        simp [backtickPatternHead]
      rw [hsplit] at hpre
      have := isPre_append_drop _ _ _ hpre
      simp only [containsSub]
      rw [this]
      simp

/-- C9: the dispatcher's argument-repair heuristic.  If all three backtick
patterns match inside the single supplied key, the arguments are replaced by
the three extracted values under their proper names; if any of the three
patterns fails to match, the original single-key arguments are kept. -/
theorem fix_refresh_arguments_spec :
    (∀ (key : String) (v : PyVal) (rt cid cs : String),
      reSearchBacktick "zoom_refresh_token" key.data = some rt →
      reSearchBacktick "zoom_client_id" key.data = some cid →
      reSearchBacktick "zoom_client_secret" key.data = some cs →
      fix_refresh_arguments "zoom_refresh_token" (.cons key v .nil) =
        .cons "zoom_refresh_token" (.str rt)
          (.cons "zoom_client_id" (.str cid)
          (.cons "zoom_client_secret" (.str cs) .nil))) ∧
    (∀ (key : String) (v : PyVal),
      (reSearchBacktick "zoom_refresh_token" key.data = none ∨
       reSearchBacktick "zoom_client_id" key.data = none ∨
       reSearchBacktick "zoom_client_secret" key.data = none) →
      fix_refresh_arguments "zoom_refresh_token" (.cons key v .nil) = .cons key v .nil) := by
  constructor
  · intro key v rt cid cs h1 h2 h3
    have e1 : containsSub "`zoom_refresh_token`".data key.data = true := by
      rw [show ("`zoom_refresh_token`".data) = '`' :: "zoom_refresh_token".data ++ ['`'] from rfl]
      exact reSearch_contains _ _ _ h1
    have e2 : containsSub "`zoom_client_id`".data key.data = true := by
      rw [show ("`zoom_client_id`".data) = '`' :: "zoom_client_id".data ++ ['`'] from rfl]
      exact reSearch_contains _ _ _ h2
    have e3 : containsSub "`zoom_client_secret`".data key.data = true := by
      rw [show ("`zoom_client_secret`".data) = '`' :: "zoom_client_secret".data ++ ['`'] from rfl]
      exact reSearch_contains _ _ _ h3
    simp [fix_refresh_arguments, flen, e1, e2, e3, h1, h2, h3]
  · intro key v h
    simp only [fix_refresh_arguments, flen]
    rcases ha : reSearchBacktick "zoom_refresh_token" key.data with _ | rt <;>
      rcases hb : reSearchBacktick "zoom_client_id" key.data with _ | cid <;>
      rcases hc : reSearchBacktick "zoom_client_secret" key.data with _ | cs <;>
      simp [ha, hb, hc]
    rcases h with h | h | h
    · rw [h] at ha; exact Option.noConfusion ha
    · rw [h] at hb; exact Option.noConfusion hb
    · rw [h] at hc; exact Option.noConfusion hc

/-- The example key from the spec's testable property for C9. -/
def exKey : String :=
  "`zoom_refresh_token`: `abc`, `zoom_client_id`: `id1`, `zoom_client_secret`: `sec1`"

/-- Witness for C9: the spec's example key extracts `abc`, `id1`, `sec1`,
and a key matching only one pattern leaves the arguments unchanged. -/
theorem fix_refresh_arguments_spec_witness :
    fix_refresh_arguments "zoom_refresh_token" (.cons exKey (.str "w") .nil) =
      .cons "zoom_refresh_token" (.str "abc")
        (.cons "zoom_client_id" (.str "id1")
        (.cons "zoom_client_secret" (.str "sec1") .nil)) ∧
    fix_refresh_arguments "zoom_refresh_token" (.cons "`zoom_refresh_token`: nope" (.str "w") .nil) =
      .cons "`zoom_refresh_token`: nope" (.str "w") .nil :=
  ⟨fix_refresh_arguments_spec.1 exKey (.str "w") "abc" "id1" "sec1" rfl rfl rfl,
   fix_refresh_arguments_spec.2 "`zoom_refresh_token`: nope" (.str "w") (Or.inr (Or.inl rfl))⟩

/-- An oracle whose every response is a plain HTTP 401 (no exception raised,
as `requests` behaves when the server answers 401 and `raise_for_status` is
never called). -/
def o401 : Oracle := fun _ => .ok ⟨401, "upstream says no", none⟩

/-- C2 (amended): when the upstream call returns a 401 *response*, each
resource operation takes the generic non-200 branch: the result is exactly
the error object whose text carries the status code 401 — the
`Unauthorized` wording of `_handle_token_refresh` is reached only when the
HTTP layer *raises* an exception carrying a 401 response, which plain
responses never do. -/
theorem resource_ops_401 (c : ZoomClient) (o : Oracle) (off : String)
    (fd td : PyVal) (ps pn : Int) (mid : PyVal) (resp : Response)
    (h4 : resp.status_code = 401) :
    (o (userRecordingsRequest c fd td ps pn) = .ok resp →
      (list_recordings c o off fd td ps pn).1 =
        renderJson (.dict (.cons "error"
          (.str "Failed to retrieve recordings. Status code: 401")
          (.cons "details" (.str resp.text)
          (.cons "status" (.str "error") .nil))))) ∧
    (o (meetingRecordingsRequest c mid) = .ok resp →
      (get_recording_details c mid o off).1 =
        renderJson (.dict (.cons "error"
          (.str "Failed to retrieve recording details. Status code: 401")
          (.cons "details" (.str resp.text)
          (.cons "status" (.str "error") .nil))))) ∧
    (o (meetingRecordingsRequest c mid) = .ok resp →
      (get_meeting_transcript c mid o off).1 =
        renderJson (.dict (.cons "error"
          (.str "Failed to retrieve recording information. Status code: 401")
          (.cons "details" (.str resp.text)
          (.cons "status" (.str "error") .nil))))) := by
  have hne : (resp.status_code != 200) = true := by simp [h4]
  refine ⟨fun h1 => ?_, fun h1 => ?_, fun h1 => ?_⟩
  · simp only [list_recordings, list_recordings_op, h1, hne, if_true]
    simp only [handle_token_refresh, outer_catch, h4]
    rw [show ("Failed to retrieve recordings. Status code: " ++ natRepr 401 : String) =
      "Failed to retrieve recordings. Status code: 401" from rfl]
  · simp only [get_recording_details, get_recording_details_op, h1, hne, if_true]
    simp only [handle_token_refresh, outer_catch, h4]
    rw [show ("Failed to retrieve recording details. Status code: " ++ natRepr 401 : String) =
      "Failed to retrieve recording details. Status code: 401" from rfl]
  · simp only [get_meeting_transcript, get_meeting_transcript_op, h1, hne, if_true]
    simp only [handle_token_refresh, outer_catch, h4]
    rw [show ("Failed to retrieve recording information. Status code: " ++ natRepr 401 : String) =
      "Failed to retrieve recording information. Status code: 401" from rfl]

/-- Witness for C2 (amended): the 401 error objects at a concrete client and
oracle, and the fact that the rendered reply does contain `401`. -/
theorem resource_ops_401_witness :
    (list_recordings cFix o401 off0 .pynone .pynone 30 1).1 =
      renderJson (.dict (.cons "error"
        (.str "Failed to retrieve recordings. Status code: 401")
        (.cons "details" (.str "upstream says no")
        (.cons "status" (.str "error") .nil)))) ∧
    containsSub "401".data (list_recordings cFix o401 off0 .pynone .pynone 30 1).1.data = true :=
  ⟨(resource_ops_401 cFix o401 off0 .pynone .pynone 30 1 (.str "m1")
      ⟨401, "upstream says no", none⟩ rfl).1 rfl,
   by decide⟩

/-- Counterexample for C2 as stated: for a mocked upstream returning a 401
response, the result of `list_recordings` does NOT contain the word
`Unauthorized` (while it does contain the status code). -/
theorem list_recordings_401_no_unauthorized_text :
    containsSub "Unauthorized".data
      (list_recordings cFix o401 off0 .pynone .pynone 30 1).1.data = false ∧
    containsSub "401".data
      (list_recordings cFix o401 off0 .pynone .pynone 30 1).1.data = true := by
  decide

/-- An oracle that always raises a `RequestException` with no attached
response. -/
def oRaise : Oracle := fun _ => .error ⟨"boom", none⟩

/-- A client holding a refresh token, as the dispatcher builds for the
refresh tool. -/
def cRef : ZoomClient := ⟨.pynone, .str "rtok", .pynone, .pynone, "https://api.zoom.us/v2"⟩

/-- C3 (amended): the outermost catch of the three *resource* operations
renders `\x7b"error": message\x7d` with the `status` field omitted (shown
here on the in-operation exception raised by `response.json()` on an
unparseable 200 body); `refresh_access_token`'s own outermost catch instead
includes `"status": "error"` (shown on a raised `RequestException`). -/
theorem outer_exception_shapes :
    (∀ (c : ZoomClient) (o : Oracle) (off : String) (fd td : PyVal) (ps pn : Int)
        (resp : Response),
      o (userRecordingsRequest c fd td ps pn) = .ok resp →
      resp.status_code = 200 → resp.jsonBody = none →
      (list_recordings c o off fd td ps pn).1 =
        renderJson (.dict (.cons "error"
          (.str "Expecting value: line 1 column 1 (char 0)") .nil))) ∧
    (∀ (c : ZoomClient) (o : Oracle) (off : String) (mid : PyVal) (resp : Response),
      o (meetingRecordingsRequest c mid) = .ok resp →
      resp.status_code = 200 → resp.jsonBody = none →
      (get_recording_details c mid o off).1 =
        renderJson (.dict (.cons "error"
          (.str "Expecting value: line 1 column 1 (char 0)") .nil))) ∧
    (∀ (c : ZoomClient) (o : Oracle) (off : String) (mid : PyVal) (resp : Response),
      o (meetingRecordingsRequest c mid) = .ok resp →
      resp.status_code = 200 → resp.jsonBody = none →
      (get_meeting_transcript c mid o off).1 =
        renderJson (.dict (.cons "error"
          (.str "Expecting value: line 1 column 1 (char 0)") .nil))) ∧
    (∀ (c : ZoomClient) (cid csec : PyVal) (o : Oracle) (clock : Int → String)
        (msg : String),
      pySliceable cid = true → pyTruthy c.refresh_token = true →
      pySliceable c.refresh_token = true →
      o (tokenRequest c cid csec) = .error ⟨msg, none⟩ →
      (refresh_access_token c cid csec o clock).1 =
        .ok (renderJson (.dict (.cons "error" (.str msg)
          (.cons "status" (.str "error") .nil))))) := by
  refine ⟨?_, ?_, ?_, ?_⟩
  · intro c o off fd td ps pn resp h1 h2 h3
    simp [list_recordings, list_recordings_op, h1, h2, h3, respJson,
      handle_token_refresh, outer_catch, strExc]
  · intro c o off mid resp h1 h2 h3
    simp [get_recording_details, get_recording_details_op, h1, h2, h3, respJson,
      handle_token_refresh, outer_catch, strExc]
  · intro c o off mid resp h1 h2 h3
    simp [get_meeting_transcript, get_meeting_transcript_op, h1, h2, h3, respJson,
      handle_token_refresh, outer_catch, strExc]
  · intro c cid csec o clock msg hslice htr htrs h1
    simp [refresh_access_token, refresh_try, sliceGuard, hslice, htr, htrs, h1,
      refresh_catch, strExc]

/-- Witness for C3 (amended): the status-omitted shape for `list_recordings`
and the status-included shape for `refresh_access_token`, at concrete
inputs. -/
theorem outer_exception_shapes_witness :
    (list_recordings cFix oStub off0 .pynone .pynone 30 1).1 =
      renderJson (.dict (.cons "error"
        (.str "Expecting value: line 1 column 1 (char 0)") .nil)) ∧
    (refresh_access_token cRef (.str "id") (.str "sec") oRaise clk0).1 =
      .ok (renderJson (.dict (.cons "error" (.str "boom")
        (.cons "status" (.str "error") .nil)))) :=
  ⟨outer_exception_shapes.1 cFix oStub off0 .pynone .pynone 30 1 ⟨200, "", none⟩ rfl rfl rfl,
   outer_exception_shapes.2.2.2 cRef (.str "id") (.str "sec") oRaise clk0 "boom"
     rfl rfl rfl rfl⟩

/-- Counterexample for C3 as stated: `refresh_access_token`'s outermost catch
returns an object that also carries `"status": "error"`, which differs from
the status-omitted object the claim asserts for all four operations. -/
theorem refresh_outer_catch_includes_status :
    (refresh_access_token cRef (.str "id") (.str "sec") oRaise clk0).1 =
      .ok (renderJson (.dict (.cons "error" (.str "boom")
        (.cons "status" (.str "error") .nil)))) ∧
    renderJson (.dict (.cons "error" (.str "boom")
      (.cons "status" (.str "error") .nil))) ≠
      renderJson (.dict (.cons "error" (.str "boom") .nil)) :=
  ⟨rfl, by decide⟩

/-- C4 (amended): dispatching an unregistered tool name yields the reply
`Error: Unknown tool: <name>` only when the arguments carry a truthy
`zoom_access_token` — the dispatcher checks the access token *before*
reaching the unknown-tool branch (the counterexample shows what happens
without one). -/
theorem unknown_tool_reply (o : Oracle) (clock : Int → String) (off : String)
    (name : String) (args : PyFields)
    (h1 : name ≠ "zoom_refresh_token") (h2 : name ≠ "zoom_list_recordings")
    (h3 : name ≠ "zoom_get_recording_details") (h4 : name ≠ "zoom_get_meeting_transcript")
    (hne : pyTruthy (.dict args) = true)
    (hser : isSerializable (.dict args) = true)
    (htok : pyTruthy (getArg args "zoom_access_token") = true) :
    handle_call_tool o clock off name (some args) =
      [⟨"Error: Unknown tool: " ++ name⟩] := by
  have e1 : (name == "zoom_refresh_token") = false := by simp [h1]
  have e2 : (name == "zoom_list_recordings") = false := by simp [h2]
  have e3 : (name == "zoom_get_recording_details") = false := by simp [h3]
  have e4 : (name == "zoom_get_meeting_transcript") = false := by simp [h4]
  simp only [handle_call_tool, handle_call_tool_body, hne, Bool.not_true,
    Bool.false_eq_true, if_false, pyJsonDumps, hser, if_true,
    fix_refresh_arguments, e1, e2, e3, e4, Bool.false_and, htok, strExc]
  rw [show ("Error: " ++ ("Unknown tool: " ++ name) : String) =
    "Error: Unknown tool: " ++ name from by rw [← String.append_assoc]; rfl]

/-- Witness for C4 (amended): concrete unknown tool with a truthy access
token. -/
theorem unknown_tool_reply_witness :
    handle_call_tool oStub clk0 off0 "foo"
      (some (.cons "zoom_access_token" (.str "t") .nil)) =
      [⟨"Error: Unknown tool: foo"⟩] :=
  unknown_tool_reply oStub clk0 off0 "foo" (.cons "zoom_access_token" (.str "t") .nil)
    (by decide) (by decide) (by decide) (by decide) rfl rfl rfl

/-- Counterexample for C4 as stated: an unknown tool name with a non-empty
arguments mapping that lacks `zoom_access_token` is answered with
`Error: zoom_access_token is required` — the reply never mentions
`Unknown tool`. -/
theorem unknown_tool_without_token_counterexample :
    handle_call_tool oStub clk0 off0 "foo" (some (.cons "x" (.str "y") .nil)) =
      [⟨"Error: zoom_access_token is required"⟩] ∧
    containsSub "Unknown tool".data "Error: zoom_access_token is required".data = false :=
  ⟨rfl, by decide⟩

/-- A found key implies key membership. -/
theorem fget_fhas : ∀ (fs : PyFields) (k : String) (v : PyVal),
    fget fs k = some v → fhas fs k = true
  | .nil, k, v, h => by simp [fget] at h
  | .cons k2 v2 rest, k, v, h => by
    by_cases hk : k2 == k
    · simp [fhas, hk]
    · simp only [fget, hk, if_false] at h
      simp [fhas, hk, fget_fhas rest k v h]

/-- Values of a serializable dict are serializable. -/
theorem serializableFields_fget : ∀ (fs : PyFields) (k : String) (v : PyVal),
    serializableFields fs = true → fget fs k = some v → isSerializable v = true
  | .nil, k, v, _, h => by simp [fget] at h
  | .cons k2 v2 rest, k, v, hs, h => by
    rw [serializableFields, Bool.and_eq_true] at hs
    by_cases hk : k2 == k
    · simp only [fget, hk, if_true, Option.some.injEq] at h
      exact h ▸ hs.1
    · simp only [fget, hk, if_false] at h
      exact serializableFields_fget rest k v hs.2 h

/-- When every transcript-typed file either lacks a `download_url` or its
download returns a non-200 status, the download loop yields the empty
transcript list. -/
theorem download_transcripts_all_fail (c : ZoomClient) (o : Oracle) :
    ∀ (files : List PyVal),
      (∀ f ∈ files, ∃ fs, f = PyVal.dict fs ∧
        (fhas fs "download_url" = false ∨
         ∃ u r, fget fs "download_url" = some u ∧
           o (downloadRequest c (pyStr u)) = .ok r ∧ r.status_code ≠ 200)) →
      (download_transcripts c o files).1 = .ok [] := by
  intro files
  induction files with
  | nil => intro _; rfl
  | cons f rest ih =>
    intro h
    obtain ⟨fs, hf, hcase⟩ := h f (List.mem_cons_self f rest)
    subst hf
    have hrest := ih (fun g hg => h g (List.mem_cons_of_mem _ hg))
    rcases hcase with hno | ⟨u, r, hu, hor, hst⟩
    · simp [download_transcripts, pyContains, hno, hrest]
    · have hhas : fhas fs "download_url" = true := fget_fhas fs _ u hu
      have hne : (r.status_code == 200) = false := by simp [hst]
      simp [download_transcripts, pyContains, hhas, pyGetItem, hu, hor, hne, hrest]

/-- C10 (amended): when at least one `TRANSCRIPT`-typed file exists but every
such file either lacks a `download_url` key or its download returns a
non-200 status, `get_meeting_transcript` still reports
`"status": "success"` with an empty `transcripts` list — no error or
partial-failure marker is emitted.  (Its output coincides with that for a
meeting whose transcript files all lack download URLs, though not with one
whose downloads succeed with empty content — see the counterexample.) -/
theorem get_meeting_transcript_silent_download_failures
    (c : ZoomClient) (mid : PyVal) (o : Oracle) (off : String)
    (resp : Response) (ds : PyFields) (files : List PyVal)
    (h1 : o (meetingRecordingsRequest c mid) = .ok resp)
    (h2 : resp.status_code = 200)
    (h3 : resp.jsonBody = some (.dict ds))
    (h4 : find_transcript_files (.dict ds) = .ok files)
    (h5 : files ≠ [])
    (h6 : ∀ f ∈ files, ∃ fs, f = PyVal.dict fs ∧
        (fhas fs "download_url" = false ∨
         ∃ u r, fget fs "download_url" = some u ∧
           o (downloadRequest c (pyStr u)) = .ok r ∧ r.status_code ≠ 200))
    (h7 : isSerializable mid = true)
    (h8 : serializableFields ds = true) :
    (get_meeting_transcript c mid o off).1 =
      renderJson (.dict (.cons "meeting_id" mid
        (.cons "topic" ((fget ds "topic").getD (.str ""))
        (.cons "meeting_duration" ((fget ds "duration").getD (.num 0))
        (.cons "transcripts" (.list .nil)
        (.cons "status" (.str "success") .nil)))))) := by
  have hdl := download_transcripts_all_fail c o files h6
  have htopic : isSerializable ((fget ds "topic").getD (.str "")) = true := by
    rcases ht : fget ds "topic" with _ | v
    · rfl
    · simpa using serializableFields_fget ds "topic" v h8 ht
  have hdur : isSerializable ((fget ds "duration").getD (.num 0)) = true := by
    rcases ht : fget ds "duration" with _ | v
    · rfl
    · simpa using serializableFields_fget ds "duration" v h8 ht
  have hemp : files.isEmpty = false := by
    cases files with
    | nil => exact absurd rfl h5
    | cons a b => rfl
  simp only [get_meeting_transcript, get_meeting_transcript_op, h1, h2, h3,
    respJson, h4, hemp, hdl, pyGetAttr, bne_self_eq_false, Bool.false_eq_true,
    if_false, Bool.not_false, listToItems, convert_datetime_fields, convertItems]
  simp [pyJsonDumps, isSerializable, serializableFields, serializableItems, h7,
    htopic, hdur, handle_token_refresh, outer_catch]

/-- A transcript-typed recording file with a download URL. -/
def fT : PyFields :=
  .cons "file_type" (.str "TRANSCRIPT") (.cons "download_url" (.str "u") .nil)

/-- A meeting's recordings listing with exactly that transcript file. -/
def dsT : PyFields :=
  .cons "topic" (.str "Mtg") (.cons "duration" (.num 60)
    (.cons "recording_files" (.list (.cons (.dict fT) .nil)) .nil))

/-- Oracle: listing succeeds, the transcript download returns 404. -/
def oT404 : Oracle := fun r =>
  if r.url == "u" then .ok ⟨404, "x", none⟩ else .ok ⟨200, "raw", some (.dict dsT)⟩

/-- Oracle: listing succeeds, the transcript download returns 200 with an
empty body. -/
def oT200 : Oracle := fun r =>
  if r.url == "u" then .ok ⟨200, "", none⟩ else .ok ⟨200, "raw", some (.dict dsT)⟩

/-- Witness for C10 (amended): the concrete failing-download meeting yields
the success payload with an empty transcripts list. -/
theorem get_meeting_transcript_silent_download_failures_witness :
    (get_meeting_transcript cFix (.str "m1") oT404 off0).1 =
      renderJson (.dict (.cons "meeting_id" (.str "m1")
        (.cons "topic" (.str "Mtg")
        (.cons "meeting_duration" (.num 60)
        (.cons "transcripts" (.list .nil)
        (.cons "status" (.str "success") .nil)))))) :=
  get_meeting_transcript_silent_download_failures cFix (.str "m1") oT404 off0
    ⟨200, "raw", some (.dict dsT)⟩ dsT [.dict fT] rfl rfl rfl rfl
    (by simp)
    (by
      intro f hf
      rw [List.mem_singleton] at hf
      subst hf
      exact ⟨fT, rfl, Or.inr ⟨.str "u", ⟨404, "x", none⟩, rfl, rfl, by decide⟩⟩)
    rfl rfl

/-- Counterexample for C10 as stated: the caller CAN distinguish a meeting
whose transcript downloads all failed from one whose downloads succeeded
with empty content — the two replies differ (the second carries one
transcript entry with empty `content`). -/
theorem transcript_download_failure_distinguishable :
    (get_meeting_transcript cFix (.str "m1") oT404 off0).1 ≠
      (get_meeting_transcript cFix (.str "m1") oT200 off0).1 := by
  decide

/-- A string is a JSON document iff it is the `json.dumps` rendering of some
serializable value. -/
def IsJsonDoc (s : String) : Prop :=
  ∃ v, isSerializable v = true ∧ renderJson v = s

/-- `Nat.digitChar` of a decimal digit is a digit character. -/
theorem digitChar_isDigit (m : Nat) (h : m < 10) : (Nat.digitChar m).isDigit = true := by
  interval_cases m <;> decide

/-- With enough fuel, `natDigits` starts with a digit character. -/
theorem natDigits_head_digit : ∀ (fuel n : Nat), n < fuel →
    ∃ c rest, natDigits fuel n = c :: rest ∧ c.isDigit = true := by
  intro fuel
  induction fuel with
  | zero => intro n h; omega
  | succ f ih =>
    intro n h
    by_cases h10 : n < 10
    · exact ⟨Nat.digitChar n, [], by simp [natDigits, h10], digitChar_isDigit n h10⟩
    · have hn : n / 10 < f := by
        have := Nat.div_lt_self (show 0 < n by omega) (show 1 < 10 by omega)
        omega
      obtain ⟨c, rest, hc, hd⟩ := ih (n / 10) hn
      refine ⟨c, rest ++ [Nat.digitChar (n % 10)], ?_, hd⟩
      simp [natDigits, h10, hc]

/-- No JSON rendering starts with the letter `E`: objects start with a brace,
arrays with a bracket, strings with a quote, numbers with a digit or minus
sign, and the literals with `t`, `f` or `n`. -/
theorem renderJson_head_ne_E (v : PyVal) : (renderJson v).data.head? ≠ some 'E' := by
  cases v with
  | str s => simp [renderJson, quoteJson, String.data_append]
  | num n =>
    by_cases hneg : n < 0
    · simp [renderJson, intRepr, hneg, String.data_append, natRepr]
    · obtain ⟨c, rest, hc, hd⟩ := natDigits_head_digit (n.toNat + 1) n.toNat (Nat.lt_succ_self _)
      simp only [renderJson, intRepr, hneg, if_false, natRepr, hc]
      intro hcontra
      simp only [List.head?, Option.some.injEq] at hcontra
      rw [hcontra] at hd
      simp at hd
  | bool b => cases b <;> decide
  | pynone => decide
  | datetime i => simp [renderJson, quoteJson, String.data_append]
  | tzlocal => decide
  | dict fs => simp [renderJson, String.data_append]
  | list xs => simp [renderJson, String.data_append]

/-- `renderJson` of a serializable value is a JSON document. -/
theorem IsJsonDoc_render (v : PyVal) (h : isSerializable v = true) :
    IsJsonDoc (renderJson v) := ⟨v, h, rfl⟩

/-- A successful `json.dumps` produced a JSON document. -/
theorem pyJsonDumps_ok (v : PyVal) (s : String) (h : pyJsonDumps v = .ok s) :
    IsJsonDoc s := by
  by_cases hs : isSerializable v = true
  · rw [pyJsonDumps, if_pos hs] at h
    exact ⟨v, hs, by injection h⟩
  · rw [pyJsonDumps, if_neg hs] at h
    exact absurd h (by simp)

/-- A list is a leading segment of itself extended. -/
theorem isPre_list_append : ∀ (l r : List Char), isPre l (l ++ r) = true := by
  intro l
  induction l with
  | nil => intro r; rfl
  | cons c cs ih => intro r; simp [isPre, ih]

/-- Texts of the form `Error: <message>` carry the `Error: ` marker. -/
theorem errPre (m : String) : isPre "Error: ".data ("Error: " ++ m).data = true := by
  rw [String.data_append]
  exact isPre_list_append _ _

/-- The resource operations' outer catch always emits a JSON document. -/
theorem outer_catch_json (r : Except Exc String)
    (h : ∀ s, r = .ok s → IsJsonDoc s) : IsJsonDoc (outer_catch r) := by
  rcases r with e | s
  · exact ⟨.dict (.cons "error" (.str (strExc e)) .nil),
      by simp [isSerializable, serializableFields], rfl⟩
  · exact h s rfl

/-- `_handle_token_refresh` preserves the JSON-document property of
successful results. -/
theorem handle_token_refresh_json (p : Except Exc String × List Request)
    (h : ∀ s, p.1 = .ok s → IsJsonDoc s) :
    ∀ s, (handle_token_refresh p).1 = .ok s → IsJsonDoc s := by
  rcases p with ⟨e | s0, calls⟩
  · intro s hs
    cases e with
    | requestException msg resp =>
      cases resp with
      | none =>
        simp only [handle_token_refresh] at hs
        injection hs with hs
        exact ⟨_, by simp [isSerializable, serializableFields], hs⟩
      | some rr =>
        by_cases h401 : rr.status_code == 401
        · simp only [handle_token_refresh, h401, if_true] at hs
          injection hs with hs
          exact ⟨_, by simp [isSerializable, serializableFields], hs⟩
        · simp only [handle_token_refresh, h401, Bool.false_eq_true, if_false] at hs
          injection hs with hs
          exact ⟨_, by simp [isSerializable, serializableFields], hs⟩
    | valueError m => simp [handle_token_refresh] at hs
    | typeError m => simp [handle_token_refresh] at hs
    | keyError k => simp [handle_token_refresh] at hs
    | attributeError m => simp [handle_token_refresh] at hs
  · intro s hs
    simp only [handle_token_refresh] at hs
    injection hs with hs
    exact hs ▸ h s0 rfl

/-- Every success of the `list_recordings` operation body is a JSON
document. -/
theorem list_recordings_op_json (c : ZoomClient) (o : Oracle) (off : String)
    (fd td : PyVal) (ps pn : Int) :
    ∀ s, (list_recordings_op c o off fd td ps pn).1 = .ok s → IsJsonDoc s := by
  intro s h
  rcases ho : o (userRecordingsRequest c fd td ps pn) with f | resp <;>
    simp only [list_recordings_op, ho] at h
  · exact absurd h (by simp)
  · by_cases h2 : resp.status_code = 200
    · rcases hb : resp.jsonBody with _ | d
      · simp [respJson, h2, hb] at h
      · simp only [respJson, h2, hb, bne_self_eq_false, Bool.false_eq_true, if_false] at h
        exact pyJsonDumps_ok _ s h
    · have hne : (resp.status_code != 200) = true := by simp [h2]
      simp only [hne, if_true] at h
      injection h with h
      exact h ▸ IsJsonDoc_render _ (by simp [isSerializable, serializableFields])

/-- Every success of the `get_recording_details` operation body is a JSON
document. -/
theorem get_recording_details_op_json (c : ZoomClient) (mid : PyVal) (o : Oracle)
    (off : String) :
    ∀ s, (get_recording_details_op c mid o off).1 = .ok s → IsJsonDoc s := by
  intro s h
  rcases ho : o (meetingRecordingsRequest c mid) with f | resp <;>
    simp only [get_recording_details_op, ho] at h
  · exact absurd h (by simp)
  · by_cases h2 : resp.status_code = 200
    · rcases hb : resp.jsonBody with _ | d
      · simp [respJson, h2, hb] at h
      · simp only [respJson, h2, hb, bne_self_eq_false, Bool.false_eq_true, if_false] at h
        exact pyJsonDumps_ok _ s h
    · have hne : (resp.status_code != 200) = true := by simp [h2]
      simp only [hne, if_true] at h
      injection h with h
      exact h ▸ IsJsonDoc_render _ (by simp [isSerializable, serializableFields])

/-- Every success of the `get_meeting_transcript` operation body is a JSON
document. -/
theorem get_meeting_transcript_op_json (c : ZoomClient) (mid : PyVal) (o : Oracle)
    (off : String) :
    ∀ s, (get_meeting_transcript_op c mid o off).1 = .ok s → IsJsonDoc s := by
  intro s h
  rcases ho : o (meetingRecordingsRequest c mid) with f | resp <;>
    simp only [get_meeting_transcript_op, ho] at h
  · exact absurd h (by simp)
  · by_cases h2 : resp.status_code = 200
    · rcases hb : resp.jsonBody with _ | d
      · simp [respJson, h2, hb] at h
      · simp only [respJson, h2, hb, bne_self_eq_false, Bool.false_eq_true, if_false] at h
        rcases hf : find_transcript_files d with e | files <;> simp only [hf] at h
        · exact absurd h (by simp)
        · by_cases hemp : files.isEmpty
          · simp only [hemp, if_true] at h
            injection h with h
            exact h ▸ IsJsonDoc_render _ (by simp [isSerializable, serializableFields])
          · simp only [hemp, Bool.false_eq_true, if_false] at h
            rcases hdl : download_transcripts c o files with ⟨e | ts, dlCalls⟩ <;>
              rw [hdl] at h
            · exact absurd h (by simp)
            · rcases hg1 : pyGetAttr d "topic" (.str "") with e | topic <;>
                simp only [hg1] at h
              · exact absurd h (by simp)
              · rcases hg2 : pyGetAttr d "duration" (.num 0) with e | dur <;>
                  simp only [hg2] at h
                · exact absurd h (by simp)
                · exact pyJsonDumps_ok _ s h
    · have hne : (resp.status_code != 200) = true := by simp [h2]
      simp only [hne, if_true] at h
      injection h with h
      exact h ▸ IsJsonDoc_render _ (by simp [isSerializable, serializableFields])

/-- `list_recordings` always returns a JSON document. -/
theorem list_recordings_json (c : ZoomClient) (o : Oracle) (off : String)
    (fd td : PyVal) (ps pn : Int) :
    IsJsonDoc (list_recordings c o off fd td ps pn).1 :=
  outer_catch_json _ (handle_token_refresh_json _ (list_recordings_op_json c o off fd td ps pn))

/-- `get_recording_details` always returns a JSON document. -/
theorem get_recording_details_json (c : ZoomClient) (mid : PyVal) (o : Oracle)
    (off : String) : IsJsonDoc (get_recording_details c mid o off).1 :=
  outer_catch_json _ (handle_token_refresh_json _ (get_recording_details_op_json c mid o off))

/-- `get_meeting_transcript` always returns a JSON document. -/
theorem get_meeting_transcript_json (c : ZoomClient) (mid : PyVal) (o : Oracle)
    (off : String) : IsJsonDoc (get_meeting_transcript c mid o off).1 :=
  outer_catch_json _ (handle_token_refresh_json _ (get_meeting_transcript_op_json c mid o off))

/-- Every success of `refresh_access_token`'s `try:` body is a JSON
document. -/
theorem refresh_try_json (c : ZoomClient) (cid csec : PyVal) (o : Oracle)
    (clock : Int → String) :
    ∀ s, (refresh_try c cid csec o clock).1 = .ok s → IsJsonDoc s := by
  intro s h
  rcases hsg : sliceGuard c.refresh_token with e | u <;>
    simp only [refresh_try, hsg] at h
  · exact absurd h (by simp)
  · rcases ho : o (tokenRequest c cid csec) with f | resp <;> simp only [ho] at h
    · exact absurd h (by simp)
    · by_cases h2 : resp.status_code == 200
      · simp only [h2, if_true] at h
        rcases hb : resp.jsonBody with _ | d
        · simp [respJson, hb] at h
        · simp only [respJson, hb] at h
          cases d with
          | dict fields =>
            rcases hg : fget fields "access_token" with _ | at0 <;> simp only [hg] at h
            · exact absurd h (by simp)
            · rcases htd : timedeltaSeconds ((fget fields "expires_in").getD (.num 3600))
                with e | secs <;> simp only [htd] at h
              · exact absurd h (by simp)
              · exact pyJsonDumps_ok _ s h
          | str s2 => exact absurd h (by simp)
          | num n => exact absurd h (by simp)
          | bool b => exact absurd h (by simp)
          | pynone => exact absurd h (by simp)
          | datetime i => exact absurd h (by simp)
          | tzlocal => exact absurd h (by simp)
          | list xs => exact absurd h (by simp)
      · simp only [h2, Bool.false_eq_true, if_false] at h
        injection h with h
        exact h ▸ IsJsonDoc_render _ (by simp [isSerializable, serializableFields])

/-- Every success of `refresh_access_token` is a JSON document. -/
theorem refresh_access_token_json (c : ZoomClient) (cid csec : PyVal) (o : Oracle)
    (clock : Int → String) :
    ∀ s, (refresh_access_token c cid csec o clock).1 = .ok s → IsJsonDoc s := by
  intro s h
  rcases hsg : sliceGuard cid with e | u <;> simp only [refresh_access_token, hsg] at h
  · exact absurd h (by simp)
  · by_cases htr : pyTruthy c.refresh_token
    · simp only [htr, Bool.not_true, Bool.false_eq_true, if_false] at h
      injection h with h
      rw [← h]
      rcases hr : (refresh_try c cid csec o clock).1 with e | s2
      · simp only [refresh_catch]
        exact ⟨_, by simp [isSerializable, serializableFields], rfl⟩
      · exact refresh_try_json c cid csec o clock s2 hr
    · simp only [htr, Bool.not_false, if_true] at h
      injection h with h
      exact h ▸ IsJsonDoc_render _ (by simp [isSerializable, serializableFields])

/-- The inner-try text of the `zoom_list_recordings` branch is a JSON
document or an `Error: `-marked plain message. -/
theorem list_recordings_branch_shape (access_token : PyVal) (args : PyFields)
    (o : Oracle) (off : String) :
    IsJsonDoc (list_recordings_branch access_token args o off) ∨
    isPre "Error: ".data (list_recordings_branch access_token args o off).data = true := by
  unfold list_recordings_branch
  rcases hz : ZoomClient.init access_token .pynone .pynone .pynone with e | zoom <;>
    simp only [hz]
  · exact Or.inr (errPre _)
  · rcases h1 : pyToInt (getArgD args "page_size" (.num 30)) with e | ps <;> simp only [h1]
    · exact Or.inr (errPre _)
    · rcases h2 : pyToInt (getArgD args "page_number" (.num 1)) with e | pn <;> simp only [h2]
      · exact Or.inr (errPre _)
      · exact Or.inl (list_recordings_json zoom o off (getArg args "from_date")
          (getArg args "to_date") ps pn)

/-- A successful dispatcher body is a single text segment whose body is a
JSON document or an `Error: `-marked message. -/
theorem handle_call_tool_body_shape (o : Oracle) (clock : Int → String) (off : String)
    (name : String) (arguments : Option PyFields) :
    ∀ reply, handle_call_tool_body o clock off name arguments = .ok reply →
      ∃ t, reply = [⟨t⟩] ∧
        (IsJsonDoc t ∨ isPre "Error: ".data t.data = true) := by
  intro reply h
  rcases arguments with _ | args
  · simp [handle_call_tool_body] at h
  · by_cases ht : pyTruthy (.dict args)
    case neg => simp [handle_call_tool_body, ht] at h
    case pos =>
      simp only [handle_call_tool_body, ht, Bool.not_true, Bool.false_eq_true, if_false] at h
      rcases hd : pyJsonDumps (.dict args) with e | d0 <;> simp only [hd] at h
      · exact absurd h (by simp)
      · by_cases hn : name == "zoom_refresh_token"
        · simp only [hn, if_true] at h
          rcases hg1 : condSliceGuard (getArg (fix_refresh_arguments name args)
              "zoom_refresh_token") with e | u <;> simp only [hg1] at h
          · exact absurd h (by simp)
          · rcases hg2 : condSliceGuard (getArg (fix_refresh_arguments name args)
                "zoom_client_id") with e | u2 <;> simp only [hg2] at h
            · exact absurd h (by simp)
            · by_cases hrt : pyTruthy (getArg (fix_refresh_arguments name args)
                  "zoom_refresh_token")
              case neg => simp [hrt] at h
              case pos =>
                simp only [hrt, Bool.not_true, Bool.false_eq_true, if_false] at h
                by_cases hcc : (!pyTruthy (getArg (fix_refresh_arguments name args)
                    "zoom_client_id") ||
                  !pyTruthy (getArg (fix_refresh_arguments name args) "zoom_client_secret"))
                · simp [hcc] at h
                · simp only [hcc, Bool.false_eq_true, if_false] at h
                  rcases hz : ZoomClient.init
                      (getArg (fix_refresh_arguments name args) "zoom_access_token")
                      (getArg (fix_refresh_arguments name args) "zoom_refresh_token")
                      .pynone .pynone with e | zoom <;> simp only [hz] at h
                  · exact absurd h (by simp)
                  · rcases hr : (refresh_access_token zoom
                        (getArg (fix_refresh_arguments name args) "zoom_client_id")
                        (getArg (fix_refresh_arguments name args) "zoom_client_secret")
                        o clock).1 with e | results <;> simp only [hr] at h
                    · injection h with h
                      exact ⟨_, h.symm,
                        Or.inl ⟨_, by simp [isSerializable, serializableFields], rfl⟩⟩
                    · injection h with h
                      exact ⟨results, h.symm,
                        Or.inl (refresh_access_token_json zoom _ _ o clock results hr)⟩
        · simp only [hn, Bool.false_eq_true, if_false] at h
          by_cases hat : pyTruthy (getArg (fix_refresh_arguments name args)
              "zoom_access_token")
          case neg => simp [hat] at h
          case pos =>
            simp only [hat, Bool.not_true, Bool.false_eq_true, if_false] at h
            by_cases hl : name == "zoom_list_recordings"
            · simp only [hl, if_true] at h
              rcases hsg : sliceGuard (getArg (fix_refresh_arguments name args)
                  "zoom_access_token") with e | u <;> simp only [hsg] at h
              · exact absurd h (by simp)
              · injection h with h
                exact ⟨_, h.symm, list_recordings_branch_shape _ _ o off⟩
            · simp only [hl, Bool.false_eq_true, if_false] at h
              by_cases h2 : name == "zoom_get_recording_details"
              · simp only [h2, if_true] at h
                rcases hz : ZoomClient.init
                    (getArg (fix_refresh_arguments name args) "zoom_access_token")
                    .pynone .pynone .pynone with e | zoom <;> simp only [hz] at h
                · exact absurd h (by simp)
                · by_cases hm : pyTruthy (getArg (fix_refresh_arguments name args)
                      "meeting_id")
                  case neg => simp [hm] at h
                  case pos =>
                    simp only [hm, Bool.not_true, Bool.false_eq_true, if_false] at h
                    injection h with h
                    exact ⟨_, h.symm, Or.inl (get_recording_details_json zoom _ o off)⟩
              · simp only [h2, Bool.false_eq_true, if_false] at h
                by_cases h3 : name == "zoom_get_meeting_transcript"
                · simp only [h3, if_true] at h
                  rcases hz : ZoomClient.init
                      (getArg (fix_refresh_arguments name args) "zoom_access_token")
                      .pynone .pynone .pynone with e | zoom <;> simp only [hz] at h
                  · exact absurd h (by simp)
                  · by_cases hm : pyTruthy (getArg (fix_refresh_arguments name args)
                        "meeting_id")
                    case neg => simp [hm] at h
                    case pos =>
                      simp only [hm, Bool.not_true, Bool.false_eq_true, if_false] at h
                      injection h with h
                      exact ⟨_, h.symm, Or.inl (get_meeting_transcript_json zoom _ o off)⟩
                · simp [h3] at h

/-- C1 (amended): every dispatch — any tool name, any arguments including a
missing or empty mapping, any oracle — returns exactly one text segment,
whose body is either a JSON document (every facade result) or a plain
message marked `Error: ` (the dispatcher's validation/exception paths, which
are NOT JSON — see the counterexample). -/
theorem handle_call_tool_single_reply_shape (o : Oracle) (clock : Int → String)
    (off : String) (name : String) (arguments : Option PyFields) :
    ∃ t, handle_call_tool o clock off name arguments = [⟨t⟩] ∧
      (IsJsonDoc t ∨ isPre "Error: ".data t.data = true) := by
  rcases hb : handle_call_tool_body o clock off name arguments with e | reply <;>
    simp only [handle_call_tool, hb]
  · exact ⟨"Error: " ++ strExc e, rfl, Or.inr (errPre _)⟩
  · obtain ⟨t, hrep, hsh⟩ := handle_call_tool_body_shape o clock off name arguments reply hb
    exact ⟨t, by rw [hrep], hsh⟩

/-- Counterexample for C1 as stated: a dispatch with missing arguments
replies with the plain text `Error: Missing arguments for foo`, which is not
a JSON document (no JSON rendering starts with the letter `E`). -/
theorem handle_call_tool_missing_args_not_json :
    handle_call_tool oStub clk0 off0 "foo" none =
      [⟨"Error: Missing arguments for foo"⟩] ∧
    ¬ IsJsonDoc "Error: Missing arguments for foo" := by
  constructor
  · rfl
  · rintro ⟨v, _, hr⟩
    have hhead := renderJson_head_ne_E v
    rw [hr] at hhead
    exact hhead rfl
